import Mathlib

/-!
# Verification of the 3M-Ambu benefits-request portal core logic

Shallow embedding of the repository's business logic:

* `calculateReimbursement` — the reimbursement-suggestion calculator of
  `src/components/RequestForm.tsx` (salary amounts as rationals).
* `handler` / `handlerCore` — the privileged status-update edge function of
  `supabase/functions/request-management/index.ts`, modelled as a pure
  function on an explicit list of request rows.
* `fetchRequests` — the list operation of `src/hooks/useRequests.ts`.
* `filterByPolo` / `groupByPolo` / `handleReject` — the manager dashboard
  logic of `src/pages/DashboardGestora.tsx`.
* `uploadFiles` / `onSubmit` — the attachment-upload and submission flow of
  `src/components/RequestForm.tsx`.

Currency values are rationals; timestamps are naturals.
-/

namespace Ambu

/-! ## Reimbursement calculator (`src/components/RequestForm.tsx`) -/

/-- `const BASE_SALARY = 2018.36` — the reimbursement floor. -/
def BASE_SALARY : ℚ := 2018.36

/-- `const SALARY_PERCENTAGE = 0.9`. -/
def SALARY_PERCENTAGE : ℚ := 0.9

/-- `calculateReimbursement(salary, type)` from `RequestForm.tsx`:
returns `0` for non-positive salary; otherwise `maxReimbursable = salary *
SALARY_PERCENTAGE`, returning `BASE_SALARY` when `maxReimbursable <=
BASE_SALARY` and `maxReimbursable` otherwise.  The `type` argument is
accepted and ignored, exactly as in the source. -/
def calculateReimbursement (salary : ℚ) (type : String) : ℚ :=
  if salary ≤ 0 then 0
  else
    let maxReimbursable := salary * SALARY_PERCENTAGE
    if maxReimbursable ≤ BASE_SALARY then BASE_SALARY
    else maxReimbursable


/-! ## Request rows and the privileged status-update edge function
(`supabase/functions/request-management/index.ts`) -/

/-- The `status` enum of the `requests` table. -/
inductive Status
  | pending
  | approved
  | rejected
deriving DecidableEq, Repr

/-- The status values admissible in `UpdateRequestBody`
(`status: 'approved' | 'rejected'`). -/
inductive TargetStatus
  | approved
  | rejected
deriving DecidableEq, Repr

/-- Embeds a target status into the `requests.status` enum. -/
def TargetStatus.toStatus : TargetStatus → Status
  | .approved => .approved
  | .rejected => .rejected

/-- A row of the `requests` table, restricted to the columns the verified
logic reads or writes. -/
structure Rec where
  id : String
  user_id : String
  created_at : Nat
  status : Status
  approved_at : Option Nat
  rejection_reason : Option String
  polo : Option String
deriving DecidableEq, Repr

/-- The JSON body of a POST to the edge function
(`interface UpdateRequestBody`). -/
structure UpdateRequestBody where
  requestId : String
  status : TargetStatus
  rejectionReason : Option String
deriving DecidableEq, Repr

/-- HTTP method of the incoming request, as distinguished by the handler. -/
inductive Method
  | OPTIONS
  | POST
  | GET
deriving DecidableEq, Repr

/-- The handler's possible responses: the empty CORS preflight reply, the
200 `{success, data, message}` reply carrying the updated row, the 405
reply, and the 500 `{error, details}` reply from the catch block. -/
inductive HandlerResponse
  | preflight
  | success (updatedRequest : Rec)
  | methodNotAllowed
  | errorResp (msg : String)
deriving DecidableEq, Repr

/-- JavaScript truthiness of `headers.get('Authorization')`: the guard
`if (!authHeader)` fires when the header is absent (`null`) or the empty
string. -/
def blankAuth : Option String → Bool
  | none => true
  | some s => s = ""

/-- JavaScript truthiness of the optional `rejectionReason` string: truthy
iff present and non-empty. -/
def truthy : Option String → Bool
  | none => false
  | some s => s ≠ ""

/-- The `updateData` applied to the matched row: sets `status`, sets
`approved_at` to the current time, and sets `rejection_reason` only when
the target status is `rejected` and a truthy reason was supplied
(otherwise the stored value is untouched). -/
def applyUpdate (b : UpdateRequestBody) (now : Nat) (r : Rec) : Rec :=
  { r with
    status := b.status.toStatus
    approved_at := some now
    rejection_reason :=
      if b.status = .rejected ∧ truthy b.rejectionReason then b.rejectionReason
      else r.rejection_reason }

/-- The database effect of `.update(updateData).eq('id', requestId)`: every
row whose `id` matches is overwritten with the update. -/
def updateDb (b : UpdateRequestBody) (now : Nat) (db : List Rec) : List Rec :=
  db.map fun r => if r.id = b.requestId then applyUpdate b now r else r

/-- The handler up to (and excluding) the email side-call: CORS preflight,
the `Authorization` guard, JSON parsing (`body = none` models a parse
failure), the single-row update with `.select().single()`, and the
response.  Returns the response together with the resulting table. -/
def handlerCore (auth : Option String) (method : Method)
    (body : Option UpdateRequestBody) (now : Nat) (db : List Rec) :
    HandlerResponse × List Rec :=
  if method = Method.OPTIONS then (.preflight, db)
  else if blankAuth auth then (.errorResp "Missing authorization header", db)
  else
    match method, body with
    | Method.POST, some b =>
      match db.filter (fun r => decide (r.id = b.requestId)) with
      | [r] => (.success (applyUpdate b now r), updateDb b now db)
      | _ => (.errorResp "Failed to update request", updateDb b now db)
    | Method.POST, none => (.errorResp "Invalid JSON body", db)
    | _, _ => (.methodNotAllowed, db)

/-- The console log written by the email try/catch. -/
def emailLog (emailOk : Bool) : List String :=
  if emailOk then ["Email notification sent"]
  else ["Failed to send email notification"]

/-- Full result of one handler invocation: the HTTP response, the table
after the invocation, and the log of the notification attempt. -/
structure HandlerResult where
  response : HandlerResponse
  db : List Rec
  log : List String
deriving DecidableEq, Repr

/-- The edge-function handler.  After a successful update it invokes the
`send-notification-email` function (outcome `emailOk`); a failure there is
caught and logged and does not alter the response or the table. -/
def handler (auth : Option String) (method : Method)
    (body : Option UpdateRequestBody) (now : Nat) (emailOk : Bool)
    (db : List Rec) : HandlerResult :=
  let core := handlerCore auth method body now db
  { response := core.1
    db := core.2
    log :=
      match core.1 with
      | .success _ => emailLog emailOk
      | _ => [] }

/-! ## Manager dashboard reject guard (`src/pages/DashboardGestora.tsx`) -/

/-- Whether a string trims to the empty string, i.e. consists only of
whitespace: the condition of the guard `if (!reason.trim())` in
`handleReject`. -/
def isBlank (s : String) : Bool := s.data.all Char.isWhitespace

/-- `handleReject(requestId, reason)` from `DashboardGestora.tsx`: refuses
with a "Motivo obrigatório" validation toast when the reason trims to
empty, performing no call; otherwise invokes the edge function through
`updateRequestStatus(requestId, 'rejected', reason)`.  Returns the
resulting table and whether the call was refused by the guard. -/
def handleReject (requestId : String) (reason : String) (auth : Option String)
    (now : Nat) (emailOk : Bool) (db : List Rec) : List Rec × Bool :=
  if isBlank reason then (db, true)
  else
    ((handler auth Method.POST (some ⟨requestId, .rejected, some reason⟩)
        now emailOk db).db, false)

/-! ## Listing requests (`src/hooks/useRequests.ts`) -/

/-- A row of the `users` profile table. -/
structure ProfileRow where
  id : String
  name : String
  email : String
  department : Option String
  polo : Option String
  role : String
deriving DecidableEq, Repr

/-- The owner profile columns selected by the join
(`users!requests_user_id_fkey (name, email, department, polo)`). -/
structure UsersFields where
  name : String
  email : String
  department : Option String
  polo : Option String
deriving DecidableEq, Repr

/-- Projects a profile row to the joined columns. -/
def toUsersFields (p : ProfileRow) : UsersFields :=
  ⟨p.name, p.email, p.department, p.polo⟩

/-- A request row with its embedded owner profile, as returned by the
select with join. -/
structure JoinedRequest where
  req : Rec
  users : Option UsersFields
deriving DecidableEq, Repr

/-- The foreign-key embed: the owner's profile fields, or `none` when no
profile row matches `user_id`. -/
def joinOwner (userTable : List ProfileRow) (r : Rec) : JoinedRequest :=
  ⟨r, (userTable.find? (fun p => decide (p.id = r.user_id))).map toUsersFields⟩

/-- The ordering of `.order('created_at', { ascending: false })`:
newest first. -/
def byCreatedDesc (a b : JoinedRequest) : Prop :=
  b.req.created_at ≤ a.req.created_at

instance : DecidableRel byCreatedDesc :=
  fun a b => Nat.decLe b.req.created_at a.req.created_at

instance : IsTotal JoinedRequest byCreatedDesc :=
  ⟨fun a b => Nat.le_total b.req.created_at a.req.created_at⟩

instance : IsTrans JoinedRequest byCreatedDesc :=
  ⟨fun _ _ _ hab hbc => le_trans hbc hab⟩

/-- The `useRequests` hook state touched by `fetchRequests`. -/
structure HookState where
  requests : List JoinedRequest
  error : Option String
  loading : Bool
deriving DecidableEq, Repr

/-- `fetchRequests` from `useRequests.ts`: with no profile it returns at
once, leaving the whole hook state untouched; otherwise it queries the
`requests` table joined with the owner profile, restricted to the
viewer's own rows when the role is `solicitante`, ordered by
`created_at` descending.  `fetchErr` models a query failure, which sets
the error message and leaves the cached rows unchanged. -/
def fetchRequests (viewer : Option ProfileRow) (reqTable : List Rec)
    (userTable : List ProfileRow) (fetchErr : Option String)
    (s : HookState) : HookState :=
  match viewer with
  | none => s
  | some p =>
    match fetchErr with
    | some e => { s with error := some e, loading := false }
    | none =>
      let rows :=
        if p.role = "solicitante"
        then reqTable.filter (fun r => decide (r.user_id = p.id))
        else reqTable
      { requests := List.insertionSort byCreatedDesc (rows.map (joinOwner userTable))
        error := none
        loading := false }

/-! ## Branch filtering on the manager dashboard
(`src/pages/DashboardGestora.tsx`) -/

/-- The fixed branch list of `groupByPolo`. -/
def polos : List String := ["3M Sumaré", "Manaus", "Ribeirão Preto", "Itapetininga"]

/-- `request.users?.polo`: the owner-profile polo, `none` when either the
join or the profile's polo is missing. -/
def usersPolo (r : JoinedRequest) : Option String :=
  r.users.bind fun u => u.polo

/-- `filterByPolo` from `DashboardGestora.tsx`: the whole list for the
`todos` tab, otherwise the rows whose owner-profile polo equals the
selected branch. -/
def filterByPolo (selectedPolo : String) (requestList : List JoinedRequest) :
    List JoinedRequest :=
  if selectedPolo = "todos" then requestList
  else requestList.filter fun r => decide (usersPolo r = some selectedPolo)

/-- `groupByPolo` from `DashboardGestora.tsx`: one bucket per fixed
branch, each holding the rows whose owner-profile polo equals it. -/
def groupByPolo (requestList : List JoinedRequest) :
    List (String × List JoinedRequest) :=
  polos.map fun polo =>
    (polo, requestList.filter fun r => decide (usersPolo r = some polo))

/-- Formalisation of the claim's phrase "the subset of requests whose polo
equals the branch", read on the request row's own `polo` column, for
comparison with the implemented filter. -/
def ownPoloSubset (branch : String) (requestList : List JoinedRequest) :
    List JoinedRequest :=
  requestList.filter fun r => decide (r.req.polo = some branch)

/-- Formalisation of the claim's "unassigned" remainder: the rows whose
owner-profile polo is not any of the fixed branches. -/
def unassignedByPolo (requestList : List JoinedRequest) :
    List JoinedRequest :=
  requestList.filter fun r => decide (∀ b ∈ polos, usersPolo r ≠ some b)

/-! ## Attachment upload and submission (`src/components/RequestForm.tsx`) -/

/-- `uploadFiles` from `RequestForm.tsx`: files are processed one at a
time in order; each yields a storage path (`Except.ok`) or an upload error
(`Except.error`).  On the first error the function throws, discarding the
paths accumulated so far; otherwise it returns all paths in order. -/
def uploadFiles : List (Except String String) → Except String (List String)
  | [] => .ok []
  | .ok path :: rest => (uploadFiles rest).map fun l => path :: l
  | .error e :: _ => .error e

/-- The created request, restricted to the field the upload flow decides. -/
structure CreatedRequest where
  attachments : List String
deriving DecidableEq, Repr

/-- `onSubmit` from `RequestForm.tsx`, restricted to the upload flow: with
no profile nothing is created; otherwise attachments are uploaded when
present, an upload failure is caught and demoted to a warning toast
(second component `true`), and the request is created with the resulting
list — the initial empty list when the upload threw. -/
def onSubmit (profileId : Option String)
    (attachments : List (Except String String)) :
    Option (CreatedRequest × Bool) :=
  match profileId with
  | none => none
  | some _ =>
    let uploaded : List String × Bool :=
      if 0 < attachments.length then
        match uploadFiles attachments with
        | .ok l => (l, false)
        | .error _ => ([], true)
      else ([], false)
    some (⟨uploaded.1⟩, uploaded.2)

/-- Formalisation of the claim's phrase "the files that succeeded before
the error": the paths of the successful uploads preceding the first
failure. -/
def succeededBeforeError (files : List (Except String String)) : List String :=
  (files.takeWhile fun f => f.isOk).filterMap fun f => f.toOption

/-- A target status never embeds to `pending`. -/
lemma TargetStatus.toStatus_ne_pending (t : TargetStatus) :
    t.toStatus ≠ Status.pending := by
  cases t <;> simp [TargetStatus.toStatus]

/-- The table after `handlerCore` is either untouched or is the update for
the posted body. -/
lemma handlerCore_snd (auth : Option String) (method : Method)
    (body : Option UpdateRequestBody) (now : Nat) (db : List Rec) :
    (handlerCore auth method body now db).2 = db
    ∨ ∃ b, body = some b
        ∧ (handlerCore auth method body now db).2 = updateDb b now db := by
  cases method with
  | OPTIONS => exact Or.inl rfl
  | GET =>
    left
    rcases body with _ | b <;>
      · unfold handlerCore
        split
        · rfl
        · split
          · rfl
          · rfl
  | POST =>
    rcases body with _ | b
    · left
      unfold handlerCore
      split
      · rfl
      · split
        · rfl
        · rfl
    · by_cases hA : blankAuth auth = true
      · left
        unfold handlerCore
        rw [if_neg (by decide), if_pos hA]
      · refine Or.inr ⟨b, rfl, ?_⟩
        have hred : handlerCore auth Method.POST (some b) now db
            = match db.filter (fun r => decide (r.id = b.requestId)) with
              | [r] => (HandlerResponse.success (applyUpdate b now r),
                  updateDb b now db)
              | _ => (HandlerResponse.errorResp "Failed to update request",
                  updateDb b now db) := by
          unfold handlerCore
          rw [if_neg (by decide), if_neg hA]
        rw [hred]
        split
        · rfl
        · rfl

/-- A row of the updated table is an untouched row of the old table or
carries the posted (non-pending) status. -/
lemma mem_updateDb (b : UpdateRequestBody) (now : Nat) (db : List Rec)
    (r' : Rec) (h : r' ∈ updateDb b now db) :
    r' ∈ db ∨ r'.status = b.status.toStatus ∧ r'.status ≠ Status.pending := by
  rw [updateDb, List.mem_map] at h
  obtain ⟨r, hr, hfr⟩ := h
  by_cases hid : r.id = b.requestId
  · right
    rw [if_pos hid] at hfr
    rw [← hfr]
    exact ⟨rfl, TargetStatus.toStatus_ne_pending b.status⟩
  · left
    rw [if_neg hid] at hfr
    rwa [← hfr]

/-! ## Theorems for claims C1 and C9 -/

/-- C1: for every salary input the suggestion is 0 when salary ≤ 0;
otherwise with cap = salary * 0.9 it is the floor 2018.36 when cap ≤ floor
and cap otherwise; in particular suggest(2000) = 2018.36 and
suggest(3000) = 2700. -/
theorem c1_suggestion_rule :
    (∀ (s : ℚ) (t : String), s ≤ 0 → calculateReimbursement s t = 0)
    ∧ (∀ (s : ℚ) (t : String), 0 < s → s * SALARY_PERCENTAGE ≤ BASE_SALARY →
        calculateReimbursement s t = BASE_SALARY)
    ∧ (∀ (s : ℚ) (t : String), 0 < s → BASE_SALARY < s * SALARY_PERCENTAGE →
        calculateReimbursement s t = s * SALARY_PERCENTAGE)
    ∧ calculateReimbursement 2000 "médico" = 2018.36
    ∧ calculateReimbursement 3000 "médico" = 2700 := by
  refine ⟨?_, ?_, ?_, ?_, ?_⟩
  · intro s t hs
    simp [calculateReimbursement, hs]
  · intro s t hs hcap
    rw [calculateReimbursement, if_neg (by linarith)]
    simp only []
    rw [if_pos hcap]
  · intro s t hs hcap
    rw [calculateReimbursement, if_neg (by linarith)]
    simp only []
    rw [if_neg (by linarith)]
  · unfold calculateReimbursement
    norm_num [SALARY_PERCENTAGE, BASE_SALARY]
  · unfold calculateReimbursement
    norm_num [SALARY_PERCENTAGE, BASE_SALARY]

/-- Witness for C1: instantiation at salary 2000, discharging the
positivity and cap hypotheses. -/
theorem c1_suggestion_rule_witness :
    (0 : ℚ) < 2000 ∧ (2000 : ℚ) * SALARY_PERCENTAGE ≤ BASE_SALARY
    ∧ calculateReimbursement 2000 "psicológico" = BASE_SALARY :=
  ⟨by norm_num, by norm_num [SALARY_PERCENTAGE, BASE_SALARY],
    c1_suggestion_rule.2.1 2000 "psicológico" (by norm_num)
      (by norm_num [SALARY_PERCENTAGE, BASE_SALARY])⟩

/-- Counterexample to C9 as stated: the claim's universal clause "for all
s, if s * 0.9 ≤ FLOOR then suggest(s) = FLOOR" fails at s = 0, where the
code's non-positivity guard returns 0, not the floor. -/
theorem c9_zero_salary_counterexample :
    (0 : ℚ) * SALARY_PERCENTAGE ≤ BASE_SALARY
    ∧ calculateReimbursement 0 "médico" = 0
    ∧ calculateReimbursement 0 "médico" ≠ BASE_SALARY := by
  refine ⟨by norm_num [SALARY_PERCENTAGE, BASE_SALARY], ?_, ?_⟩
  · unfold calculateReimbursement
    norm_num
  · unfold calculateReimbursement
    norm_num [BASE_SALARY]

/-- C9 amended: for all s > 0, if s * 0.9 ≤ FLOOR then suggest(s) = FLOOR,
else suggest(s) = s * 0.9; and suggest(0) = 0. -/
theorem c9_piecewise_rule (s : ℚ) (t : String) (hs : 0 < s) :
    (s * SALARY_PERCENTAGE ≤ BASE_SALARY → calculateReimbursement s t = BASE_SALARY)
    ∧ (¬ s * SALARY_PERCENTAGE ≤ BASE_SALARY →
        calculateReimbursement s t = s * SALARY_PERCENTAGE)
    ∧ calculateReimbursement 0 t = 0 := by
  refine ⟨?_, ?_, ?_⟩
  · intro hcap
    rw [calculateReimbursement, if_neg (by linarith)]
    simp only []
    rw [if_pos hcap]
  · intro hcap
    rw [calculateReimbursement, if_neg (by linarith)]
    simp only []
    rw [if_neg hcap]
  · simp [calculateReimbursement]

/-- Witness for C9's amended theorem at salary 3000. -/
theorem c9_piecewise_rule_witness :
    ¬ (3000 : ℚ) * SALARY_PERCENTAGE ≤ BASE_SALARY
    ∧ calculateReimbursement 3000 "outros" = 3000 * SALARY_PERCENTAGE :=
  ⟨by norm_num [SALARY_PERCENTAGE, BASE_SALARY],
    (c9_piecewise_rule 3000 "outros" (by norm_num)).2.1
      (by norm_num [SALARY_PERCENTAGE, BASE_SALARY])⟩

/-! ## Theorems for claims C2 and C3 -/

/-- C2 amended: the client-side reject handler refuses a rejection whose
reason trims to empty before any call, leaving the stored table unchanged;
(the backend endpoint itself performs no such validation, see the
counterexample). -/
theorem c2_blank_reason_refused (requestId reason : String)
    (auth : Option String) (now : Nat) (emailOk : Bool) (db : List Rec)
    (h : isBlank reason = true) :
    handleReject requestId reason auth now emailOk db = (db, true) := by
  simp [handleReject, h]

/-- Witness for C2's theorem: a whitespace-only reason at a concrete
record is refused without touching the table. -/
theorem c2_blank_reason_refused_witness :
    isBlank "   " = true
    ∧ handleReject "r1" "   " (some "Bearer tok") 5 true
        [⟨"r1", "u1", 0, Status.pending, none, none, none⟩]
      = ([⟨"r1", "u1", 0, Status.pending, none, none, none⟩], true) :=
  ⟨by decide,
    c2_blank_reason_refused "r1" "   " (some "Bearer tok") 5 true
      [⟨"r1", "u1", 0, Status.pending, none, none, none⟩] (by decide)⟩

/-- Counterexample to C2 as stated: a POST to the edge function with
target status `rejected` and a missing rejection reason is not refused —
the handler mutates the stored record's status to `rejected` (also
stamping `approved_at`). -/
theorem c2_server_accepts_blank_rejection :
    (handler (some "Bearer tok") Method.POST
        (some ⟨"r1", TargetStatus.rejected, none⟩) 5 true
        [⟨"r1", "u1", 0, Status.pending, none, none, none⟩]).db
      = [⟨"r1", "u1", 0, Status.rejected, some 5, none, none⟩]
    ∧ Status.rejected ≠ Status.pending := by
  constructor
  · rfl
  · decide

/-- Counterexample to C3 as stated: the edge function applies the
requested status regardless of the current one, so a terminal (approved)
record is re-transitioned to rejected. -/
theorem c3_terminal_retransition_counterexample :
    (handler (some "Bearer tok") Method.POST
        (some ⟨"r1", TargetStatus.rejected, some "late reason"⟩) 9 true
        [⟨"r1", "u1", 0, Status.approved, some 3, none, none⟩]).db
      = [⟨"r1", "u1", 0, Status.rejected, some 9, some "late reason", none⟩]
    ∧ Status.rejected ≠ Status.approved := by
  constructor
  · rfl
  · decide

/-- C3 amended: the handler does not guard terminal states — it overwrites
the matched record with the requested status unconditionally — but the
only statuses a transition can write are `approved` and `rejected`, so
after any invocation every row either is unchanged or carries the
requested non-pending status: no row is ever transitioned (back) to
`pending`. -/
theorem c3_no_transition_to_pending (auth : Option String) (method : Method)
    (body : Option UpdateRequestBody) (now : Nat) (emailOk : Bool)
    (db : List Rec) (r' : Rec)
    (h : r' ∈ (handler auth method body now emailOk db).db) :
    r' ∈ db ∨ ∃ b, body = some b ∧ r'.status = b.status.toStatus
      ∧ r'.status ≠ Status.pending := by
  have hdb : (handler auth method body now emailOk db).db
      = (handlerCore auth method body now db).2 := rfl
  rw [hdb] at h
  rcases handlerCore_snd auth method body now db with hc | ⟨b, hb, hc⟩
  · rw [hc] at h
    exact Or.inl h
  · rw [hc] at h
    rcases mem_updateDb b now db r' h with h1 | ⟨h2, h3⟩
    · exact Or.inl h1
    · exact Or.inr ⟨b, hb, h2, h3⟩

/-- Witness for C3's theorem: a GET invocation leaves the concrete table
unchanged, so its one row is still in the table. -/
theorem c3_no_transition_to_pending_witness :
    (⟨"r1", "u1", 0, Status.approved, some 3, none, none⟩ : Rec)
        ∈ [(⟨"r1", "u1", 0, Status.approved, some 3, none, none⟩ : Rec)]
    ∨ ∃ b, (none : Option UpdateRequestBody) = some b
        ∧ Status.approved = b.status.toStatus
        ∧ Status.approved ≠ Status.pending := by
  have h := c3_no_transition_to_pending none Method.GET none 0 true
    [⟨"r1", "u1", 0, Status.approved, some 3, none, none⟩]
    ⟨"r1", "u1", 0, Status.approved, some 3, none, none⟩
    (by decide)
  exact h

/-- For a POST with a parsed body past the auth guard, `handlerCore` is
the single-row update with its `.single()` post-condition. -/
lemma handlerCore_post_some (auth : Option String) (b : UpdateRequestBody)
    (now : Nat) (db : List Rec) (hA : blankAuth auth = false) :
    handlerCore auth Method.POST (some b) now db
    = match db.filter (fun r => decide (r.id = b.requestId)) with
      | [r] => (HandlerResponse.success (applyUpdate b now r), updateDb b now db)
      | _ => (HandlerResponse.errorResp "Failed to update request",
          updateDb b now db) := by
  unfold handlerCore
  rw [if_neg (by decide), if_neg (by simp [hA])]

/-! ## Theorems for claims C4, C5 and C6 -/

/-- C4 amended: a POST is refused with an error and no table change
exactly when the `Authorization` header is absent or empty (the guard
`if (!authHeader)` treats an empty header like a missing one); with any
non-empty header, whatever its content, the handler performs the status
update with the service-role client. -/
theorem c4_auth_gate (auth : Option String) (b : UpdateRequestBody)
    (now : Nat) (emailOk : Bool) (db : List Rec) :
    (blankAuth auth = true →
      (handler auth Method.POST (some b) now emailOk db).response
          = HandlerResponse.errorResp "Missing authorization header"
      ∧ (handler auth Method.POST (some b) now emailOk db).db = db)
    ∧ (blankAuth auth = false →
      (handler auth Method.POST (some b) now emailOk db).db
        = updateDb b now db) := by
  constructor
  · intro hA
    have hcore : handlerCore auth Method.POST (some b) now db
        = (HandlerResponse.errorResp "Missing authorization header", db) := by
      unfold handlerCore
      rw [if_neg (by decide), if_pos hA]
    constructor
    · show (handlerCore auth Method.POST (some b) now db).1 = _
      rw [hcore]
    · show (handlerCore auth Method.POST (some b) now db).2 = _
      rw [hcore]
  · intro hA
    show (handlerCore auth Method.POST (some b) now db).2 = _
    rw [handlerCore_post_some auth b now db hA]
    split
    · rfl
    · rfl

/-- Witness for C4's theorem: a missing header is refused without
mutation, and an arbitrary non-empty bearer header drives the update. -/
theorem c4_auth_gate_witness :
    ((handler none Method.POST (some ⟨"r1", TargetStatus.approved, none⟩) 7
        true [⟨"r1", "u1", 0, Status.pending, none, none, none⟩]).response
      = HandlerResponse.errorResp "Missing authorization header"
    ∧ (handler none Method.POST (some ⟨"r1", TargetStatus.approved, none⟩) 7
        true [⟨"r1", "u1", 0, Status.pending, none, none, none⟩]).db
      = [⟨"r1", "u1", 0, Status.pending, none, none, none⟩])
    ∧ (handler (some "Bearer not-even-a-jwt") Method.POST
        (some ⟨"r1", TargetStatus.approved, none⟩) 7 true
        [⟨"r1", "u1", 0, Status.pending, none, none, none⟩]).db
      = updateDb ⟨"r1", TargetStatus.approved, none⟩ 7
          [⟨"r1", "u1", 0, Status.pending, none, none, none⟩] :=
  ⟨(c4_auth_gate none ⟨"r1", TargetStatus.approved, none⟩ 7 true
      [⟨"r1", "u1", 0, Status.pending, none, none, none⟩]).1 rfl,
    (c4_auth_gate (some "Bearer not-even-a-jwt")
      ⟨"r1", TargetStatus.approved, none⟩ 7 true
      [⟨"r1", "u1", 0, Status.pending, none, none, none⟩]).2 (by decide)⟩

/-- Counterexample to C4 as stated: a present but empty `Authorization`
header also yields an error response with no mutation, so "no mutation
exactly when the header is absent" fails. -/
theorem c4_empty_header_counterexample :
    (some "" : Option String) ≠ none
    ∧ (handler (some "") Method.POST (some ⟨"r1", TargetStatus.approved, none⟩)
        7 true [⟨"r1", "u1", 0, Status.pending, none, none, none⟩]).response
      = HandlerResponse.errorResp "Missing authorization header"
    ∧ (handler (some "") Method.POST (some ⟨"r1", TargetStatus.approved, none⟩)
        7 true [⟨"r1", "u1", 0, Status.pending, none, none, none⟩]).db
      = [⟨"r1", "u1", 0, Status.pending, none, none, none⟩] := by
  refine ⟨by decide, rfl, rfl⟩

/-- C5: a successful approval transition (on a pending record, which
carries no rejection reason) returns the updated record with
status `approved`, `approved_at` stamped with the transition time, and a
null `rejection_reason` (the update never touches that column on an
approval). -/
theorem c5_approval_fields (auth : Option String) (b : UpdateRequestBody)
    (now : Nat) (emailOk : Bool) (db : List Rec) (r : Rec)
    (hA : blankAuth auth = false)
    (hF : db.filter (fun x => decide (x.id = b.requestId)) = [r])
    (hS : b.status = TargetStatus.approved)
    (hP : r.status = Status.pending)
    (hR : r.rejection_reason = none) :
    (handler auth Method.POST (some b) now emailOk db).response
      = HandlerResponse.success (applyUpdate b now r)
    ∧ (applyUpdate b now r).status = Status.approved
    ∧ (applyUpdate b now r).approved_at = some now
    ∧ (applyUpdate b now r).rejection_reason = none := by
  refine ⟨?_, ?_, rfl, ?_⟩
  · show (handlerCore auth Method.POST (some b) now db).1 = _
    rw [handlerCore_post_some auth b now db hA, hF]
  · simp [applyUpdate, hS, TargetStatus.toStatus]
  · simp [applyUpdate, hS, hR]

/-- Witness for C5: a concrete approval of a pending record. -/
theorem c5_approval_fields_witness :
    (handler (some "Bearer tok") Method.POST
        (some ⟨"r1", TargetStatus.approved, none⟩) 5 true
        [⟨"r1", "u1", 0, Status.pending, none, none, none⟩]).response
      = HandlerResponse.success
          (applyUpdate ⟨"r1", TargetStatus.approved, none⟩ 5
            ⟨"r1", "u1", 0, Status.pending, none, none, none⟩)
    ∧ (applyUpdate ⟨"r1", TargetStatus.approved, none⟩ 5
        ⟨"r1", "u1", 0, Status.pending, none, none, none⟩).status
      = Status.approved
    ∧ (applyUpdate ⟨"r1", TargetStatus.approved, none⟩ 5
        ⟨"r1", "u1", 0, Status.pending, none, none, none⟩).approved_at
      = some 5
    ∧ (applyUpdate ⟨"r1", TargetStatus.approved, none⟩ 5
        ⟨"r1", "u1", 0, Status.pending, none, none, none⟩).rejection_reason
      = none :=
  c5_approval_fields (some "Bearer tok") ⟨"r1", TargetStatus.approved, none⟩
    5 true [⟨"r1", "u1", 0, Status.pending, none, none, none⟩]
    ⟨"r1", "u1", 0, Status.pending, none, none, none⟩
    (by decide) (by decide) rfl rfl rfl

/-- C6: the response and the stored table are independent of the outcome
of the notification side-call — a failed email never alters or reverts the
caller-visible result or the persisted change — and on a successful update
with a failing email the failure is logged. -/
theorem c6_email_independent (auth : Option String) (method : Method)
    (body : Option UpdateRequestBody) (now : Nat) (db : List Rec)
    (emailOk : Bool) (r : Rec) :
    ((handler auth method body now emailOk db).response
        = (handler auth method body now true db).response
      ∧ (handler auth method body now emailOk db).db
        = (handler auth method body now true db).db)
    ∧ ((handler auth method body now false db).response
          = HandlerResponse.success r →
        (handler auth method body now false db).log
          = ["Failed to send email notification"]) := by
  refine ⟨⟨rfl, rfl⟩, ?_⟩
  intro hs
  rcases hcore : handlerCore auth method body now db with ⟨resp, db2⟩
  have hresp : resp = HandlerResponse.success r := by
    have hr : (handler auth method body now false db).response = resp := by
      unfold handler
      rw [hcore]
    rw [hr] at hs
    exact hs
  subst hresp
  have hlog : (handler auth method body now false db).log = emailLog false := by
    unfold handler
    rw [hcore]
  rw [hlog]
  rfl

/-- Witness for C6: a concrete successful approval with a failing email
call still logs the failure (and, by the theorem's first part, the
response and table match the successful-email run). -/
theorem c6_email_independent_witness :
    (handler (some "Bearer tok") Method.POST
        (some ⟨"r1", TargetStatus.approved, none⟩) 5 false
        [⟨"r1", "u1", 0, Status.pending, none, none, none⟩]).log
      = ["Failed to send email notification"] :=
  (c6_email_independent (some "Bearer tok") Method.POST
    (some ⟨"r1", TargetStatus.approved, none⟩) 5
    [⟨"r1", "u1", 0, Status.pending, none, none, none⟩] false
    (applyUpdate ⟨"r1", TargetStatus.approved, none⟩ 5
      ⟨"r1", "u1", 0, Status.pending, none, none, none⟩)).2 rfl

/-! ## Theorems for claims C7, C8 and C10 -/

/-- Every element of a joined row list carries the owner-profile lookup. -/
lemma users_of_mem_map_joinOwner (userTable : List ProfileRow)
    (rows : List Rec) (x : JoinedRequest)
    (hx : x ∈ rows.map (joinOwner userTable)) :
    x.users = (userTable.find? (fun q => decide (q.id = x.req.user_id))).map
      toUsersFields := by
  rw [List.mem_map] at hx
  obtain ⟨r, _, rfl⟩ := hx
  rfl

/-- C7 amended: with no authenticated viewer, `fetchRequests` is a silent
no-op on the hook state; with a viewer, the returned rows are exactly the
viewer's own rows for role `solicitante` and all rows otherwise, each
joined with the owner's profile fields, ordered by creation time
descending. -/
theorem c7_list_scoping (p : ProfileRow) (reqTable : List Rec)
    (userTable : List ProfileRow) (s : HookState) :
    (∀ s' : HookState, fetchRequests none reqTable userTable none s' = s')
    ∧ (fetchRequests (some p) reqTable userTable none s).requests.Perm
        ((if p.role = "solicitante"
          then reqTable.filter (fun r => decide (r.user_id = p.id))
          else reqTable).map (joinOwner userTable))
    ∧ (p.role = "solicitante" →
        ∀ x ∈ (fetchRequests (some p) reqTable userTable none s).requests,
          x.req.user_id = p.id)
    ∧ (∀ x ∈ (fetchRequests (some p) reqTable userTable none s).requests,
        x.users = (userTable.find? (fun q => decide (q.id = x.req.user_id))).map
          toUsersFields)
    ∧ List.Sorted byCreatedDesc
        (fetchRequests (some p) reqTable userTable none s).requests := by
  have hreq : (fetchRequests (some p) reqTable userTable none s).requests
      = List.insertionSort byCreatedDesc
          ((if p.role = "solicitante"
            then reqTable.filter (fun r => decide (r.user_id = p.id))
            else reqTable).map (joinOwner userTable)) := rfl
  refine ⟨fun _ => rfl, ?_, ?_, ?_, ?_⟩
  · rw [hreq]
    exact List.perm_insertionSort byCreatedDesc _
  · intro hrole x hx
    rw [hreq, (List.perm_insertionSort byCreatedDesc _).mem_iff, if_pos hrole,
      List.mem_map] at hx
    obtain ⟨r, hr, rfl⟩ := hx
    have := (List.mem_filter.mp hr).2
    exact of_decide_eq_true this
  · intro x hx
    rw [hreq, (List.perm_insertionSort byCreatedDesc _).mem_iff] at hx
    exact users_of_mem_map_joinOwner userTable _ x hx
  · rw [hreq]
    exact List.sorted_insertionSort byCreatedDesc _

/-- Witness for C7: a solicitante viewer over a two-owner table sees a row
of their own, and that row's `user_id` is theirs. -/
theorem c7_list_scoping_witness :
    (joinOwner [⟨"u1", "Ana", "a@x", none, some "Manaus", "solicitante"⟩]
        ⟨"r1", "u1", 3, Status.pending, none, none, none⟩).req.user_id
      = "u1" := by
  have h := (c7_list_scoping
    ⟨"u1", "Ana", "a@x", none, some "Manaus", "solicitante"⟩
    [⟨"r1", "u1", 3, Status.pending, none, none, none⟩,
      ⟨"r2", "u2", 7, Status.pending, none, none, none⟩]
    [⟨"u1", "Ana", "a@x", none, some "Manaus", "solicitante"⟩]
    ⟨[], none, true⟩).2.2.1 rfl
  exact h (joinOwner [⟨"u1", "Ana", "a@x", none, some "Manaus", "solicitante"⟩]
      ⟨"r1", "u1", 3, Status.pending, none, none, none⟩)
    (by decide)

/-- Counterexample to C7's failure clause: an unauthenticated call does
not fail — it is a silent early return that reports no error and leaves
the hook state untouched. -/
theorem c7_unauthenticated_noop :
    fetchRequests none [⟨"r1", "u1", 0, Status.pending, none, none, none⟩]
        [] none ⟨[], none, true⟩ = ⟨[], none, true⟩
    ∧ (fetchRequests none [⟨"r1", "u1", 0, Status.pending, none, none, none⟩]
        [] none ⟨[], none, true⟩).error = none :=
  ⟨rfl, rfl⟩

/-- Counterexample to C8 as stated: with a first file succeeding and a
second failing, the request is created with an empty attachment list, not
with the path that succeeded before the error. -/
theorem c8_partial_upload_discarded :
    onSubmit (some "u1") [Except.ok "path-a", Except.error "upload failed"]
      = some (⟨[]⟩, true)
    ∧ succeededBeforeError [Except.ok "path-a", Except.error "upload failed"]
      = ["path-a"]
    ∧ ([] : List String) ≠ ["path-a"] := by
  refine ⟨rfl, rfl, by decide⟩

/-- C8 amended: uploads run sequentially and a failure aborts only the
upload step — the request is still created (with a warning) — but its
attachments list is then empty: the successful paths preceding the error
are discarded, not recorded.  With no profile nothing is created; with all
uploads succeeding the request carries every path. -/
theorem c8_upload_failure_behavior (pid : String)
    (files : List (Except String String)) :
    onSubmit none files = none
    ∧ (∀ l, uploadFiles files = Except.ok l →
        onSubmit (some pid) files = some (⟨l⟩, false))
    ∧ (∀ e, uploadFiles files = Except.error e →
        onSubmit (some pid) files = some (⟨[]⟩, true)) := by
  refine ⟨rfl, ?_, ?_⟩
  · intro l hl
    rcases files with _ | ⟨f, rest⟩
    · have h0 : uploadFiles [] = Except.ok ([] : List String) := rfl
      rw [h0] at hl
      injection hl with h1
      rw [← h1]
      rfl
    · simp only [onSubmit, List.length_cons, Nat.succ_pos, if_pos, hl]
  · intro e he
    rcases files with _ | ⟨f, rest⟩
    · have h0 : uploadFiles [] = Except.ok ([] : List String) := rfl
      rw [h0] at he
      exact absurd he (by simp)
    · simp only [onSubmit, List.length_cons, Nat.succ_pos, if_pos, he]

/-- Witness for C8: the all-success run records both paths; a failing run
still creates the request, with no attachments and a warning. -/
theorem c8_upload_failure_behavior_witness :
    onSubmit (some "u1") [Except.ok "path-a", Except.ok "path-b"]
      = some (⟨["path-a", "path-b"]⟩, false)
    ∧ onSubmit (some "u1") [Except.error "boom", Except.ok "path-b"]
      = some (⟨[]⟩, true) :=
  ⟨(c8_upload_failure_behavior "u1"
      [Except.ok "path-a", Except.ok "path-b"]).2.1 ["path-a", "path-b"] rfl,
    (c8_upload_failure_behavior "u1"
      [Except.error "boom", Except.ok "path-b"]).2.2 "boom" rfl⟩

/-- Counterexample to C10 as stated: the dashboard filter matches on the
owner-profile polo (`request.users?.polo`), not on the request row's own
`polo` column, so a row whose own polo is the branch but whose owner
profile names another branch is not returned. -/
theorem c10_own_polo_counterexample :
    filterByPolo "Manaus"
        [⟨⟨"r1", "u1", 0, Status.pending, none, none, some "Manaus"⟩,
          some ⟨"Ana", "a@x", none, some "Itapetininga"⟩⟩]
      = []
    ∧ ownPoloSubset "Manaus"
        [⟨⟨"r1", "u1", 0, Status.pending, none, none, some "Manaus"⟩,
          some ⟨"Ana", "a@x", none, some "Itapetininga"⟩⟩]
      = [⟨⟨"r1", "u1", 0, Status.pending, none, none, some "Manaus"⟩,
          some ⟨"Ana", "a@x", none, some "Itapetininga"⟩⟩]
    ∧ ([] : List JoinedRequest)
      ≠ [⟨⟨"r1", "u1", 0, Status.pending, none, none, some "Manaus"⟩,
          some ⟨"Ana", "a@x", none, some "Itapetininga"⟩⟩] := by
  refine ⟨by decide, by decide, by decide⟩

/-- C10 amended: for a specific branch the filter returns exactly the rows
whose owner-profile polo equals that branch (`todos` returns the whole
list), and every row is recovered either from one of the fixed per-branch
buckets of `groupByPolo` or from the remainder whose owner-profile polo is
no fixed branch (the unassigned rows), so the buckets plus that remainder
reconstruct the unfiltered list. -/
theorem c10_polo_partition (branch : String) (l : List JoinedRequest)
    (x : JoinedRequest) (hb : branch ≠ "todos") :
    (x ∈ filterByPolo branch l ↔ x ∈ l ∧ usersPolo x = some branch)
    ∧ filterByPolo "todos" l = l
    ∧ (x ∈ l ↔ (∃ g ∈ groupByPolo l, x ∈ g.2) ∨ x ∈ unassignedByPolo l) := by
  refine ⟨?_, by simp [filterByPolo], ?_, ?_⟩
  · rw [filterByPolo, if_neg hb, List.mem_filter, decide_eq_true_eq]
  · intro hx
    by_cases hcase : ∀ b ∈ polos, usersPolo x ≠ some b
    · right
      rw [unassignedByPolo, List.mem_filter]
      exact ⟨hx, decide_eq_true hcase⟩
    · left
      push_neg at hcase
      obtain ⟨b, hbp, hub⟩ := hcase
      refine ⟨(b, l.filter fun r => decide (usersPolo r = some b)), ?_, ?_⟩
      · rw [groupByPolo, List.mem_map]
        exact ⟨b, hbp, rfl⟩
      · rw [List.mem_filter]
        exact ⟨hx, decide_eq_true hub⟩
  · intro h
    rcases h with ⟨g, hg, hxg⟩ | hx
    · rw [groupByPolo, List.mem_map] at hg
      obtain ⟨b, _, rfl⟩ := hg
      exact (List.mem_filter.mp hxg).1
    · exact (List.mem_filter.mp hx).1

/-- Witness for C10: a concrete Manaus-owned row passes the Manaus filter
via the theorem's characterisation. -/
theorem c10_polo_partition_witness :
    (⟨⟨"r2", "u2", 1, Status.pending, none, none, none⟩,
        some ⟨"Bia", "b@x", none, some "Manaus"⟩⟩ : JoinedRequest)
      ∈ filterByPolo "Manaus"
          [⟨⟨"r2", "u2", 1, Status.pending, none, none, none⟩,
            some ⟨"Bia", "b@x", none, some "Manaus"⟩⟩] :=
  ((c10_polo_partition "Manaus"
      [⟨⟨"r2", "u2", 1, Status.pending, none, none, none⟩,
        some ⟨"Bia", "b@x", none, some "Manaus"⟩⟩]
      ⟨⟨"r2", "u2", 1, Status.pending, none, none, none⟩,
        some ⟨"Bia", "b@x", none, some "Manaus"⟩⟩
      (by decide)).1).mpr ⟨by decide, by decide⟩

end Ambu
